import Mathlib

/-!
A shallow embedding, in Lean, of the CloudStack driver of libcloud
(`libcloud/compute/drivers/cloudstack.py`), together with proofs about the
embedded code.

Conventions of the embedding:
* Python 2 byte strings are modelled as Lean `String`s whose characters stand
  for single bytes (the data handled by the driver is ASCII); byte-level
  operations (`lower`, `upper`, lexicographic comparison, percent-encoding)
  are implemented explicitly over `List Char` so that everything reduces in
  the kernel.
* Decoded JSON bodies are modelled by the inductive `JVal`; Python `dict`s
  of JSON data are association lists in insertion order.
* Fallible Python expressions (missing dict key, `list.remove` on an absent
  element, indexing an empty list, calling an undefined name, ...) are
  modelled in `Except PyErr`.
* The external HTTP transport is a parameter: a function from the request
  parameters to the decoded JSON body of the response (indexed by a call
  counter where the remote server is stateful, i.e. for job polling).
* The driver methods are modelled against the request-protocol interface
  (`_sync_request`/`_async_request` outcomes); the connection-level
  implementations of that interface are modelled separately.
* The poll loop of `CloudStackConnection._async_request` is modelled with
  explicit fuel: the value `none` means that the loop was still running when
  the fuel ran out.
-/

set_option maxRecDepth 100000

/-! ## Python byte-string primitives -/

/-- Python 2 `str.lower()` (ASCII case folding, one byte per character). -/
def pyLower (s : String) : String := ⟨s.data.map Char.toLower⟩

/-- Python 2 `str.upper()` (ASCII case folding, one byte per character). -/
def pyUpper (s : String) : String := ⟨s.data.map Char.toUpper⟩

/-- Lexicographic `<` on byte strings, as Python 2 compares `str` values. -/
def lexLt : List Char → List Char → Bool
  | [], [] => false
  | [], _ :: _ => true
  | _ :: _, [] => false
  | a :: as, b :: bs =>
      decide (a.toNat < b.toNat) || (a.toNat == b.toNat && lexLt as bs)

/-- The byte values of a byte string. -/
def strBytes (s : String) : List Nat := s.data.map Char.toNat

/-! ## `urllib` encoding (Python 2 `urllib.urlencode` / `quote_plus`) -/

/-- The characters Python 2 `urllib.quote` never escapes
(`always_safe`: ASCII letters, digits, `_`, `.`, `-`). -/
def alwaysSafeC (c : Char) : Bool :=
  c.isAlpha || c.isDigit || c == '_' || c == '.' || c == '-'

/-- Upper-case hexadecimal digit, as used by `urllib.quote`. -/
def hexUpper (n : Nat) : Char := "0123456789ABCDEF".data.getD n '?'

/-- The `%XX` escape of one byte (`urllib.quote` on a non-safe character). -/
def pctEncode (c : Char) : List Char :=
  ['%', hexUpper (c.toNat / 16 % 16), hexUpper (c.toNat % 16)]

/-- Python 2 `urllib.quote_plus(s)` (with the default empty `safe` set):
spaces become `+`, safe characters are kept, everything else is `%XX`. -/
def quotePlus (s : String) : List Char :=
  s.data.flatMap fun c =>
    if c == ' ' then ['+'] else if alwaysSafeC c then [c] else pctEncode c

/-- One `key=value` component of `urllib.urlencode`. -/
def encodePair (kv : String × String) : List Char :=
  quotePlus kv.1 ++ '=' :: quotePlus kv.2

/-- Python `'&'.join(l)` on byte strings. -/
def joinAmp : List (List Char) → List Char
  | [] => []
  | [x] => x
  | x :: y :: rest => x ++ '&' :: joinAmp (y :: rest)

/-- Python 2 `urllib.urlencode` on a list of pairs:
`quote_plus(k) + '=' + quote_plus(v)` joined with `&`. -/
def urlencode (pairs : List (String × String)) : List Char :=
  joinAmp (pairs.map encodePair)

/-- Python `str.replace('+', '%20')`: every `+` byte becomes the three bytes `%20`. -/
def replacePlus (s : List Char) : List Char :=
  s.flatMap fun c => if c == '+' then ['%', '2', '0'] else [c]

/-! ## SHA-1, HMAC-SHA1, Base64 (the `hashlib` / `hmac` / `base64` calls) -/

/-- Truncation to 32 bits. -/
def m32 (x : Nat) : Nat := x % 4294967296

/-- Left rotation of a 32-bit word (the operand is assumed `< 2^32`). -/
def rotl32 (n x : Nat) : Nat := (m32 (x <<< n)) ||| (x >>> (32 - n))

/-- Big-endian 4-byte encoding of a 32-bit word. -/
def beBytes4 (n : Nat) : List Nat :=
  [(n >>> 24) &&& 255, (n >>> 16) &&& 255, (n >>> 8) &&& 255, n &&& 255]

/-- Big-endian 8-byte encoding of a 64-bit length. -/
def beBytes8 (n : Nat) : List Nat :=
  [(n >>> 56) &&& 255, (n >>> 48) &&& 255, (n >>> 40) &&& 255, (n >>> 32) &&& 255,
   (n >>> 24) &&& 255, (n >>> 16) &&& 255, (n >>> 8) &&& 255, n &&& 255]

/-- SHA-1 message padding: `0x80`, zeros to 56 mod 64, 8-byte bit length. -/
def sha1pad (msg : List Nat) : List Nat :=
  msg ++ [128] ++ List.replicate ((55 + 64 - (msg.length % 64)) % 64) 0
      ++ beBytes8 (msg.length * 8)

/-- Split a padded message into 64-byte blocks. -/
def chunks64 (l : List Nat) : List (List Nat) :=
  (List.range (l.length / 64)).map fun i => ((l.drop (64 * i)).take 64)

/-- The sixteen 32-bit words of one 64-byte block, big-endian. -/
def w16 (chunk : List Nat) : List Nat :=
  (List.range 16).map fun i =>
    ((chunk.getD (4 * i) 0) <<< 24) ||| ((chunk.getD (4 * i + 1) 0) <<< 16) |||
    ((chunk.getD (4 * i + 2) 0) <<< 8) ||| (chunk.getD (4 * i + 3) 0)

/-- Extension of the 16 block words to the 80 round words of SHA-1. -/
def extendWords (w : List Nat) : List Nat :=
  (List.range 64).foldl (fun w i =>
    w ++ [rotl32 1 ((w.getD (i + 13) 0) ^^^ (w.getD (i + 8) 0) ^^^
                    (w.getD (i + 2) 0) ^^^ (w.getD i 0))]) w

/-- The SHA-1 round function. -/
def sha1f (i b c d : Nat) : Nat :=
  if i < 20 then (b &&& c) ||| ((4294967295 ^^^ b) &&& d)
  else if i < 40 then b ^^^ c ^^^ d
  else if i < 60 then (b &&& c) ||| (b &&& d) ||| (c &&& d)
  else b ^^^ c ^^^ d

/-- The SHA-1 round constants. -/
def sha1k (i : Nat) : Nat :=
  if i < 20 then 1518500249 else if i < 40 then 1859775393
  else if i < 60 then 2400959708 else 3395469782

/-- One SHA-1 compression step over a 64-byte block. -/
def sha1chunk (h : Nat × Nat × Nat × Nat × Nat) (chunk : List Nat) :
    Nat × Nat × Nat × Nat × Nat :=
  let w := extendWords (w16 chunk)
  let s := (List.range 80).foldl (fun (s : Nat × Nat × Nat × Nat × Nat) i =>
    let t := m32 (rotl32 5 s.1 + sha1f i s.2.1 s.2.2.1 s.2.2.2.1 +
                  s.2.2.2.2 + sha1k i + w.getD i 0)
    (t, s.1, rotl32 30 s.2.1, s.2.2.1, s.2.2.2.1)) h
  (m32 (h.1 + s.1), m32 (h.2.1 + s.2.1), m32 (h.2.2.1 + s.2.2.1),
   m32 (h.2.2.2.1 + s.2.2.2.1), m32 (h.2.2.2.2 + s.2.2.2.2))

/-- SHA-1 of a byte sequence (`hashlib.sha1(...).digest()`). -/
def sha1 (msg : List Nat) : List Nat :=
  let h := (chunks64 (sha1pad msg)).foldl sha1chunk
    (1732584193, 4023233417, 2562383102, 271733878, 3285377520)
  beBytes4 h.1 ++ beBytes4 h.2.1 ++ beBytes4 h.2.2.1 ++
    beBytes4 h.2.2.2.1 ++ beBytes4 h.2.2.2.2

/-- Python `hmac.new(key, msg, hashlib.sha1).digest()` (RFC 2104, block size 64). -/
def hmacSha1 (key msg : List Nat) : List Nat :=
  let key := if 64 < key.length then sha1 key else key
  let key := key ++ List.replicate (64 - key.length) 0
  sha1 ((key.map fun b => b ^^^ 92) ++ sha1 ((key.map fun b => b ^^^ 54) ++ msg))

/-- The Base64 alphabet. -/
def b64chars : List Char :=
  "ABCDEFGHIJKLMNOPQRSTUVWXYZabcdefghijklmnopqrstuvwxyz0123456789+/".data

/-- Base64 digit of a 6-bit value. -/
def b64c (n : Nat) : Char := b64chars.getD n '?'

/-- Base64 encoding of a byte sequence, with `=` padding. -/
def b64encodeL : List Nat → List Char
  | [] => []
  | [a] => [b64c (a >>> 2), b64c ((a &&& 3) <<< 4), '=', '=']
  | [a, b] => [b64c (a >>> 2), b64c (((a &&& 3) <<< 4) ||| (b >>> 4)),
               b64c ((b &&& 15) <<< 2), '=']
  | a :: b :: c :: rest =>
      b64c (a >>> 2) :: b64c (((a &&& 3) <<< 4) ||| (b >>> 4)) ::
      b64c (((b &&& 15) <<< 2) ||| (c >>> 6)) ::
      b64c (c &&& 63) :: b64encodeL rest

/-- Python `base64.b64encode` on a byte sequence. -/
def b64encode (bs : List Nat) : String := ⟨b64encodeL bs⟩

/-! ## The signer: `CloudStackConnection.pre_connect_hook` (lines 93-101) -/

/-- The sort order used by `signature.sort(key=lambda x: x[0])`: Python's
stable ascending sort compares the first tuple components as byte strings. -/
def keyLeP (a b : String × String) : Prop := lexLt b.1.data a.1.data = false

instance : DecidableRel keyLeP := fun a b =>
  inferInstanceAs (Decidable (lexLt b.1.data a.1.data = false))

/-- Strict variant of `keyLeP`; two sorted lists with pairwise-distinct keys
are sorted under this antisymmetric relation. -/
def keyLtP (a b : String × String) : Prop := lexLt a.1.data b.1.data = true

/-- The byte string that `pre_connect_hook` feeds to HMAC, translated line by
line from the source:
`signature = [(k.lower(), v) for k, v in params.items()]`,
`signature.sort(key=lambda x: x[0])`,
`signature = urllib.urlencode(signature)`,
`signature = signature.lower().replace('+', '%20')`.
Python's list sort is stable, as is insertion sort. -/
def pre_connect_signedString (params : List (String × String)) : List Char :=
  let signature := params.map fun kv => (pyLower kv.1, kv.2)
  let signature := List.insertionSort keyLeP signature
  let signature := urlencode signature
  replacePlus (signature.map Char.toLower)

/-- The signature value computed by `pre_connect_hook`:
`base64.b64encode(hmac.new(self.key, msg=signature, digestmod=hashlib.sha1).digest())`. -/
def pre_connect_signature (key : String) (params : List (String × String)) : String :=
  b64encode (hmacSha1 (strBytes key) ((pre_connect_signedString params).map Char.toNat))

/-- The hook `pre_connect_hook` itself: the computed signature is stored back into the
parameter dict under `signature`. -/
def pre_connect_hook (key : String) (params : List (String × String)) :
    List (String × String) :=
  if (params.lookup "signature").isSome then
    params.map fun kv => if kv.1 == "signature" then (kv.1, pre_connect_signature key params) else kv
  else params ++ [("signature", pre_connect_signature key params)]

/-! ### The signer transform as the specification words it (spec §4.1)

The following two definitions follow the specification's lettered steps
(a)-(f) rather than the source lines; they are compared with the
source-derived definitions above. -/

/-- Spec §4.1 step order: "the pairs are sorted lexicographically by
lower-cased key" — the sort relation stated by the spec: the key is smaller
or equal. -/
def specKeyLe (a b : String × String) : Prop :=
  a.1.data = b.1.data ∨ lexLt a.1.data b.1.data = true

instance : DecidableRel specKeyLe := fun a b =>
  inferInstanceAs (Decidable (a.1.data = b.1.data ∨ lexLt a.1.data b.1.data = true))

/-- Steps (a)-(d) of spec §4.1, written from the spec's words: (a) lower-case
the keys, (b) sort lexicographically by lower-cased key, (c) URL-encode and
concatenate the sorted pairs in `key=value&key=value` form, (d) lower-case the
whole encoded string and replace every `+` with `%20`. -/
def specCanonicalString (params : List (String × String)) : List Char :=
  let lowered := params.map fun kv => (pyLower kv.1, kv.2)
  let sorted := List.insertionSort specKeyLe lowered
  let encoded :=
    match sorted.map encodePair with
    | [] => []
    | x :: xs => xs.foldl (fun acc p => acc ++ '&' :: p) x
  replacePlus (encoded.map Char.toLower)

/-- Steps (e)-(f) of spec §4.1: HMAC-SHA1 of the canonical string under the
secret key, then Base64. -/
def specSignature (key : String) (params : List (String × String)) : String :=
  b64encode (hmacSha1 (strBytes key) ((specCanonicalString params).map Char.toNat))

/-! ## JSON values and Python runtime errors -/

/-- A decoded JSON value. Objects are association lists in insertion order. -/
inductive JVal where
  | str : String → JVal
  | num : Int → JVal
  | null : JVal
  | arr : List JVal → JVal
  | obj : List (String × JVal) → JVal

/-- A decoded JSON object body. -/
abbrev JObj := List (String × JVal)

/-- The Python exceptions the embedded code can raise. -/
inductive PyErr where
  | malformedResponse : String → PyErr
  | keyError : String → PyErr
  | typeError : String → PyErr
  | attributeError : String → PyErr
  | valueError : String → PyErr
  | indexError : PyErr
  | nameError : String → PyErr
deriving DecidableEq

/-- Look a key up in a JSON object (first binding wins; the decoder produces
unique keys). -/
def jLookup (o : JObj) (k : String) : Option JVal := o.lookup k

/-- Python `v[k]` on a decoded value: `KeyError` for a missing key,
`TypeError` when `v` is not a dict. -/
def jIndex (v : JVal) (k : String) : Except PyErr JVal :=
  match v with
  | .obj o =>
      match jLookup o k with
      | some x => .ok x
      | none => .error (.keyError k)
  | _ => .error (.typeError k)

/-- Python `v.get(k, d)`: `AttributeError` when `v` is not a dict. -/
def jGet (v : JVal) (k : String) (d : JVal) : Except PyErr JVal :=
  match v with
  | .obj o => .ok ((jLookup o k).getD d)
  | _ => .error (.attributeError "get")

/-- Python `k in v` for a decoded dict (`TypeError` on a non-container). -/
def jContains (v : JVal) (k : String) : Except PyErr Bool :=
  match v with
  | .obj o => .ok (jLookup o k).isSome
  | _ => .error (.typeError k)

/-- Python `==` on JSON scalars. Dict keys must be hashable in Python, so the
keys handled by this code (ids and IP address strings) are scalars; this is
the equality the embedded dict and `list.remove` operations use. -/
def jScalarEq : JVal → JVal → Bool
  | .str a, .str b => a == b
  | .num a, .num b => a == b
  | .null, .null => true
  | _, _ => false

/-- Python `d[k] = v` on a string-keyed dict: overwrite in place, or append. -/
def setParam (params : List (String × JVal)) (k : String) (v : JVal) :
    List (String × JVal) :=
  if (params.lookup k).isSome then
    params.map fun kv => if kv.1 == k then (kv.1, v) else kv
  else params ++ [(k, v)]

/-! ## Connection layer: `_sync_request` and `_async_request` (lines 103-138) -/

/-- Embeds `CloudStackConnection._sync_request` (lines 103-115).  `send` is the
external transport: it maps the request parameters to the decoded JSON body.
The embedded source:
`kwargs['command'] = command`;
`result = self.request(self.driver.path, params=kwargs).object`;
`command = command.lower() + 'response'`;
`if command not in result: raise MalformedResponseError("Unknown response format", body=result.body, driver=self.driver)`;
`result = result[command]`.
Note the missing-key branch: `result` is the decoded `dict`, which has no
`body` attribute, so evaluating the arguments of that `raise` statement
raises `AttributeError` before any `MalformedResponseError` exists. -/
def syncRequest (send : List (String × JVal) → JObj) (command : String)
    (kwargs : List (String × JVal)) : Except PyErr JVal :=
  let kwargs := setParam kwargs "command" (.str command)
  let result := send kwargs
  let rkey := pyLower command ++ "response"
  match jLookup result rkey with
  | some v => .ok v
  | none => .error (.attributeError "body")

/-- What the missing-key branch of `_sync_request` was written to raise: a
`MalformedResponseError` with the message `"Unknown response format"`. The
source never reaches it (see `syncRequest`). -/
def intendedMalformedError : PyErr := .malformedResponse "Unknown response format"

/-- The poll loop of `_async_request` (lines 127-131), with fuel.  `send n` is
the transport for the `n`-th request of the whole call.  The source:
`while True:`
`  result = self._sync_request('queryAsyncJobResult', jobid=job_id)`
`  if result.get('jobstatus', 0) == 0:`
`    continue`
`  time.sleep(self.async_poll_frequency)`
Both branches of the loop body fall back into `while True` — the body
contains no `break` or `return` — so the loop can only be left by an
exception; `.ok none` means the fuel ran out with the loop still running. -/
def asyncLoop (send : Nat → List (String × JVal) → JObj) (jobid : JVal)
    (n : Nat) : Nat → Except PyErr (Option JVal)
  | 0 => .ok none
  | fuel + 1 =>
    match syncRequest (send n) "queryAsyncJobResult" [("jobid", jobid)] with
    | .error e => .error e
    | .ok result =>
      match jGet result "jobstatus" (.num 0) with
      | .error e => .error e
      | .ok (.num 0) => asyncLoop send jobid (n + 1) fuel
      | .ok _ => asyncLoop send jobid (n + 1) fuel

/-- The code after the loop of `_async_request` (lines 133-138): with the
terminal poll body it would map failure (`jobstatus == 2`) to
`(False, result)` and success to `(True, result['jobresult'])`.  In the
source this code is unreachable: the loop above never terminates. -/
def asyncFinish (result : JVal) : Except PyErr (Bool × JVal) :=
  match jIndex result "jobstatus" with
  | .error e => .error e
  | .ok (.num 2) => .ok (false, result)
  | .ok _ =>
    match jIndex result "jobresult" with
    | .error e => .error e
    | .ok r => .ok (true, r)

/-- Embeds `CloudStackConnection._async_request` (lines 117-138), with fuel:
submit the command, read `jobid` from the immediate result, run the poll
loop; `.ok none` means the call is still polling when the fuel runs out. -/
def asyncRequest (send : Nat → List (String × JVal) → JObj) (command : String)
    (kwargs : List (String × JVal)) (fuel : Nat) :
    Except PyErr (Option (Bool × JVal)) :=
  match syncRequest (send 0) command kwargs with
  | .error e => .error e
  | .ok result =>
    match jIndex result "jobid" with
    | .error e => .error e
    | .ok jobid =>
      match asyncLoop send jobid 1 fuel with
      | .error e => .error e
      | .ok none => .ok none
      | .ok (some r) => (asyncFinish r).map some

/-! ## Driver-level resource model -/

/-- The abstract node states populated by this driver (libcloud `NodeState`). -/
inductive NState where
  | running | rebooting | terminated | pending
deriving DecidableEq

/-- Embeds `CloudStackNodeDriver.NODE_STATE_MAP` (lines 153-158). -/
def NODE_STATE_MAP : List (String × NState) :=
  [("Running", .running), ("Starting", .rebooting),
   ("Stopped", .terminated), ("Stopping", .terminated)]

/-- Lookup `NODE_STATE_MAP[v]`: a dict lookup on the remote state value, `KeyError`
when the value is not one of the four mapped strings (a non-string value is
never a key of the map). -/
def stateOf (v : JVal) : Except PyErr NState :=
  match v with
  | .str s =>
      match NODE_STATE_MAP.lookup s with
      | some st => .ok st
      | none => .error (.keyError s)
  | _ => .error (.keyError "state")

/-- Embeds `CloudStackAddress` (lines 39-54).  The back-reference to the owning node
is only used to reach the driver and is not part of the data; `__eq__`
compares ids only. -/
structure CSAddress where
  id : JVal
  address : JVal

/-- Embeds `CloudStackForwardingRule` (lines 56-71); `__eq__` compares ids only. -/
structure CSRule where
  id : JVal
  address : CSAddress
  protocol : String
  start_port : JVal
  end_port : Option JVal

/-- A value stored in a node's `extra` dict: raw JSON (`zoneid`), the address
list, or the forwarding-rule list. -/
inductive ExtraVal where
  | jval : JVal → ExtraVal
  | addrList : List CSAddress → ExtraVal
  | ruleList : List CSRule → ExtraVal

/-- The `CloudStackNode` data (`Node` fields populated by this driver). -/
structure CSNode where
  id : JVal
  name : JVal
  state : NState
  public_ip : List JVal
  private_ip : List JVal
  extra : List (String × ExtraVal)

/-- A `NodeLocation` as built by `list_locations` (line 193). -/
structure CSLocation where
  id : JVal
  name : JVal
  country : String

/-- One request issued through the request-protocol interface. -/
structure ApiReq where
  command : String
  params : List (String × JVal)

/-- The `_sync_request` interface the driver methods call (spec §4.3): the
result is the body already unwrapped from the `<command>response` envelope. -/
abbrev SyncApi := ApiReq → Except PyErr JVal

/-- The `_async_request` interface the driver methods call (spec §4.3): a
`(success, result)` pair for the completed job. -/
abbrev AsyncApi := ApiReq → Except PyErr (Bool × JVal)

/-- Lookup `e.lookup k` on a node's `extra` dict. -/
def extraLookup (e : List (String × ExtraVal)) (k : String) : Option ExtraVal :=
  e.lookup k

/-- Assignment `e[k] = v` on a node's `extra` dict: overwrite in place, or append. -/
def extraSet (e : List (String × ExtraVal)) (k : String) (v : ExtraVal) :
    List (String × ExtraVal) :=
  if (e.lookup k).isSome then
    e.map fun kv => if kv.1 == k then (kv.1, v) else kv
  else e ++ [(k, v)]

/-- A `mapM` for `Except` written with explicit matches, mirroring a Python
`for` loop (or comprehension) that may raise. -/
def mapME (f : α → Except PyErr β) : List α → Except PyErr (List β)
  | [] => .ok []
  | x :: xs =>
    match f x with
    | .error e => .error e
    | .ok y =>
      match mapME f xs with
      | .error e => .error e
      | .ok ys => .ok (y :: ys)

/-- A `foldlM` for `Except` written with explicit matches. -/
def foldlME (f : β → α → Except PyErr β) : β → List α → Except PyErr β
  | acc, [] => .ok acc
  | acc, x :: xs =>
    match f acc x with
    | .error e => .error e
    | .ok acc => foldlME f acc xs

/-- Python `list.remove`-style removal of the first element satisfying `p`;
`none` when no element matches (Python raises `ValueError`). -/
def removeFirstP (p : α → Bool) : List α → Option (List α)
  | [] => none
  | x :: xs => if p x then some xs else (removeFirstP p xs).map (x :: ·)

/-- The list of address objects stored under a node's `ip_addresses` extra. -/
def nodeAddrList (n : CSNode) : List CSAddress :=
  match extraLookup n.extra "ip_addresses" with
  | some (.addrList l) => l
  | _ => []

/-- The list of rules stored under a node's `ip_forwarding_rules` extra. -/
def nodeRuleList (n : CSNode) : List CSRule :=
  match extraLookup n.extra "ip_forwarding_rules" with
  | some (.ruleList l) => l
  | _ => []

/-! ## Driver methods -/

/-- Embeds `CloudStackNodeDriver.list_locations` (lines 189-194): lists zones and
maps each to `NodeLocation(loc['id'], loc['name'], 'AU', self)`. -/
def list_locations (sync : SyncApi) : Except PyErr (List CSLocation) :=
  match sync ⟨"listZones", []⟩ with
  | .error e => .error e
  | .ok locs =>
    match jIndex locs "zone" with
    | .error e => .error e
    | .ok (.arr zs) =>
        mapME (fun loc =>
          match jIndex loc "id" with
          | .error e => .error e
          | .ok i =>
            match jIndex loc "name" with
            | .error e => .error e
            | .ok n => .ok ⟨i, n, "AU"⟩) zs
    | .ok _ => .error (.typeError "zone")

/-- The `public_ips` dict built by `list_nodes` (lines 200-207): a dict from
VM id to a dict from IP address to address id, in insertion order.
`if 'virtualmachineid' not in addr: continue`, then
`public_ips[vm_id][addr['ipaddress']] = addr['id']`. -/
def buildPublicIps (items : List JVal) :
    Except PyErr (List (JVal × List (JVal × JVal))) :=
  foldlME (fun acc addr =>
    match jContains addr "virtualmachineid" with
    | .error e => .error e
    | .ok false => .ok acc
    | .ok true =>
      match jIndex addr "virtualmachineid" with
      | .error e => .error e
      | .ok vmId =>
        match jIndex addr "id" with
        | .error e => .error e
        | .ok addrId =>
          match jIndex addr "ipaddress" with
          | .error e => .error e
          | .ok ip =>
            let inner := ((acc.find? fun kv => jScalarEq kv.1 vmId).map (·.2)).getD []
            let inner :=
              if (inner.find? fun kv => jScalarEq kv.1 ip).isSome then
                inner.map fun kv => if jScalarEq kv.1 ip then (kv.1, addrId) else kv
              else inner ++ [(ip, addrId)]
            if (acc.find? fun kv => jScalarEq kv.1 vmId).isSome then
              .ok (acc.map fun kv => if jScalarEq kv.1 vmId then (kv.1, inner) else kv)
            else .ok (acc ++ [(vmId, inner)])) [] items

/-- One rule of a `listIpForwardingRules` response, wrapped as
`CloudStackForwardingRule(node, r['id'], addr, r['protocol'].upper(),
r['startport'], r['endport'])` (lines 232-235). -/
def ruleOfJson (addr : CSAddress) (r : JVal) : Except PyErr CSRule :=
  match jIndex r "id" with
  | .error e => .error e
  | .ok rid =>
    match jIndex r "protocol" with
    | .error e => .error e
    | .ok (.str prot) =>
      (match jIndex r "startport" with
       | .error e => .error e
       | .ok sp =>
         match jIndex r "endport" with
         | .error e => .error e
         | .ok ep => .ok (CSRule.mk rid addr (pyUpper prot) sp (some ep)))
    | .ok _ => .error (.attributeError "upper")

/-- One iteration of the rule loop of `list_nodes` (lines 229-236): issue
`listIpForwardingRules` (with no filter parameter) and append every rule of
the response. -/
def rulesLoopBody (sync : SyncApi) (rules : List CSRule) (addr : CSAddress) :
    Except PyErr (List CSRule) :=
  match sync ⟨"listIpForwardingRules", []⟩ with
  | .error e => .error e
  | .ok result =>
    match jGet result "ipforwardingrule" (.arr []) with
    | .error e => .error e
    | .ok (.arr rs) =>
      (match mapME (ruleOfJson addr) rs with
       | .error e => .error e
       | .ok newRules => .ok (rules ++ newRules))
    | .ok _ => .error (.typeError "ipforwardingrule")

/-- The inner loops of `list_nodes` (lines 228-236): one unfiltered
`listIpForwardingRules` call per address object. -/
def rulesLoop (sync : SyncApi) (addrObjs : List CSAddress) :
    Except PyErr (List CSRule) :=
  foldlME (rulesLoopBody sync) [] addrObjs

/-- The per-VM body of `list_nodes` (lines 211-239): build the
`CloudStackNode`, attach `ip_addresses`, then run the forwarding-rule loops
and attach `ip_forwarding_rules`. -/
def nodeOfVm (sync : SyncApi) (publicIps : List (JVal × List (JVal × JVal)))
    (vm : JVal) : Except PyErr CSNode :=
  match jIndex vm "id" with
  | .error e => .error e
  | .ok idv =>
    match jGet vm "displayname" .null with
    | .error e => .error e
    | .ok namev =>
      match jIndex vm "state" with
      | .error e => .error e
      | .ok statev =>
        match stateOf statev with
        | .error e => .error e
        | .ok st =>
          let vmAddrs := ((publicIps.find? fun kv => jScalarEq kv.1 idv).map (·.2)).getD []
          match jIndex vm "nic" with
          | .error e => .error e
          | .ok (.arr nics) =>
            (match mapME (fun x => jIndex x "ipaddress") nics with
             | .error e => .error e
             | .ok privip =>
               match jIndex vm "zoneid" with
               | .error e => .error e
               | .ok zone =>
                 let addrObjs := vmAddrs.map fun kv => CSAddress.mk kv.2 kv.1
                 match rulesLoop sync addrObjs with
                 | .error e => .error e
                 | .ok rules =>
                     .ok { id := idv, name := namev, state := st,
                           public_ip := vmAddrs.map (·.1), private_ip := privip,
                           extra := [("zoneid", .jval zone),
                                     ("ip_addresses", .addrList addrObjs),
                                     ("ip_forwarding_rules", .ruleList rules)] })
          | .ok _ => .error (.typeError "nic")

/-- Embeds `CloudStackNodeDriver.list_nodes` (lines 196-241). -/
def list_nodes (sync : SyncApi) : Except PyErr (List CSNode) :=
  match sync ⟨"listVirtualMachines", []⟩ with
  | .error e => .error e
  | .ok vms =>
    match sync ⟨"listPublicIpAddresses", []⟩ with
    | .error e => .error e
    | .ok addrs =>
      match jIndex addrs "publicipaddress" with
      | .error e => .error e
      | .ok (.arr items) =>
        (match buildPublicIps items with
         | .error e => .error e
         | .ok publicIps =>
           match jGet vms "virtualmachine" (.arr []) with
           | .error e => .error e
           | .ok (.arr vmItems) => mapME (nodeOfVm sync publicIps) vmItems
           | .ok _ => .error (.typeError "virtualmachine"))
      | .ok _ => .error (.typeError "publicipaddress")

/-- Embeds `CloudStackNodeDriver.create_node` (lines 251-283).  On job failure the
source runs `fail()` — `fail` is defined nowhere in the module, so the call
raises `NameError` rather than reporting the job failure.  On success it
reads `result['jobresult']['virtualmachine']` even though `result` is already
the unwrapped `jobresult` payload of the interface. -/
def create_node (sync : SyncApi) (async : AsyncApi) (name : String)
    (size_id image_id : JVal) (location_id : Option JVal) :
    Except PyErr CSNode :=
  match (match location_id with
         | some l => .ok l
         | none =>
           match list_locations sync with
           | .error e => .error e
           | .ok [] => .error .indexError
           | .ok (l :: _) => .ok l.id : Except PyErr JVal) with
  | .error e => .error e
  | .ok locId =>
    match sync ⟨"listNetworks", []⟩ with
    | .error e => .error e
    | .ok networks =>
      match jIndex networks "network" with
      | .error e => .error e
      | .ok (.arr []) => .error .indexError
      | .ok (.arr (net0 :: _)) =>
        (match jIndex net0 "id" with
         | .error e => .error e
         | .ok networkId =>
           match async ⟨"deployVirtualMachine",
               [("name", .str name), ("displayname", .str name),
                ("serviceofferingid", size_id), ("templateid", image_id),
                ("zoneid", locId), ("networkids", networkId)]⟩ with
           | .error e => .error e
           | .ok (false, _) => .error (.nameError "fail")
           | .ok (true, result) =>
             match jIndex result "jobresult" with
             | .error e => .error e
             | .ok jr =>
               match jIndex jr "virtualmachine" with
               | .error e => .error e
               | .ok nodev =>
                 match jIndex nodev "id" with
                 | .error e => .error e
                 | .ok nid =>
                   match jIndex nodev "displayname" with
                   | .error e => .error e
                   | .ok nname =>
                     match jIndex nodev "state" with
                     | .error e => .error e
                     | .ok nstatev =>
                       match stateOf nstatev with
                       | .error e => .error e
                       | .ok nstate =>
                         match jIndex nodev "nic" with
                         | .error e => .error e
                         | .ok (.arr nics) =>
                           (match mapME (fun x => jIndex x "ipaddress") nics with
                            | .error e => .error e
                            | .ok privip =>
                              .ok { id := nid, name := nname, state := nstate,
                                    public_ip := [], private_ip := privip,
                                    extra := [("zoneid", .jval locId),
                                              ("ip_addresses", .addrList []),
                                              ("forwarding_rules", .ruleList [])] })
                         | .ok _ => .error (.typeError "nic"))
      | .ok _ => .error (.typeError "network")

/-- Embeds `CloudStackNodeDriver.ex_release_public_ip` (lines 311-320), together
with the list of requests it issued.  The source removes the address from
`node.extra['ip_addresses']` and `node.public_ip` first, then issues
`disableStaticNat` (its result is discarded) and `disassociateIpAddress`,
returning the latter's success flag. -/
def ex_release_public_ip (async : AsyncApi) (node : CSNode)
    (address : CSAddress) : Except PyErr (Bool × CSNode) × List ApiReq :=
  match extraLookup node.extra "ip_addresses" with
  | none => (.error (.keyError "ip_addresses"), [])
  | some (.addrList alist) =>
    (match removeFirstP (fun a => jScalarEq a.id address.id) alist with
     | none => (.error (.valueError "list.remove"), [])
     | some alist2 =>
       let node := { node with
         extra := extraSet node.extra "ip_addresses" (.addrList alist2) }
       match removeFirstP (fun x => jScalarEq x address.address) node.public_ip with
       | none => (.error (.valueError "list.remove"), [])
       | some pips =>
         let node := { node with public_ip := pips }
         let req1 : ApiReq := ⟨"disableStaticNat", [("ipaddressid", address.id)]⟩
         match async req1 with
         | .error e => (.error e, [req1])
         | .ok _ =>
           let req2 : ApiReq := ⟨"disassociateIpAddress", [("id", address.id)]⟩
           match async req2 with
           | .error e => (.error e, [req1, req2])
           | .ok (success, _) => (.ok (success, node), [req1, req2]))
  | some _ => (.error (.attributeError "remove"), [])

/-- The request parameters of `createIpForwardingRule` (lines 330-336):
`ipaddressid`, the upper-cased protocol, `int(start_port)`, and `endport`
only when an end port was given. -/
def ruleArgs (address : CSAddress) (protocol : String) (start_port : Int)
    (end_port : Option Int) : List (String × JVal) :=
  let args := [("ipaddressid", address.id), ("protocol", JVal.str protocol),
               ("startport", JVal.num start_port)]
  match end_port with
  | some ep => args ++ [("endport", JVal.num ep)]
  | none => args

/-- Embeds `CloudStackNodeDriver.ex_add_ip_forwarding_rule` (lines 322-343),
together with the list of requests it issued.  The source upper-cases the
protocol, returns `None` without any request when it is not `TCP`/`UDP`,
issues `createIpForwardingRule`, then — without consulting the success
flag — reads `result['ipforwardingrule']`, builds the rule and appends it to
`node.extra['ip_forwarding_rules']`. -/
def ex_add_ip_forwarding_rule (async : AsyncApi) (node : CSNode)
    (address : CSAddress) (protocol : String) (start_port : Int)
    (end_port : Option Int) :
    Except PyErr (Option (CSRule × CSNode)) × List ApiReq :=
  let protocol := pyUpper protocol
  if protocol == "TCP" || protocol == "UDP" then
    let req : ApiReq := ⟨"createIpForwardingRule",
                         ruleArgs address protocol start_port end_port⟩
    match async req with
    | .error e => (.error e, [req])
    | .ok res =>
      match jIndex res.2 "ipforwardingrule" with
      | .error e => (.error e, [req])
      | .ok r =>
        match jIndex r "id" with
        | .error e => (.error e, [req])
        | .ok rid =>
          let rule : CSRule := ⟨rid, address, protocol, .num start_port,
                                end_port.map JVal.num⟩
          match extraLookup node.extra "ip_forwarding_rules" with
          | some (.ruleList rl) =>
              (.ok (some (rule, { node with
                 extra := extraSet node.extra "ip_forwarding_rules"
                   (.ruleList (rl ++ [rule])) })), [req])
          | some _ => (.error (.attributeError "append"), [req])
          | none => (.error (.keyError "ip_forwarding_rules"), [req])
  else (.ok none, [])

/-! ## Fixtures: concrete transports for the polling scenarios -/

/-- The pending poll body: `jobstatus == 0`. -/
def pollPending : JObj := [("queryasyncjobresultresponse", .obj [("jobstatus", .num 0)])]

/-- The terminal success poll body of the `[0, 0, 1]` scenario. -/
def pollDoneBody : JVal :=
  .obj [("jobstatus", .num 1),
        ("jobresult", .obj [("virtualmachine", .obj [("id", .str "vm1")])])]

/-- The terminal failure poll body of the `[0, 2]` scenario. -/
def pollFailBody : JVal :=
  .obj [("jobstatus", .num 2),
        ("jobresult", .obj [("errorcode", .num 431), ("errortext", .str "went wrong")])]

/-- Transport for the job-status sequence `[0, 0, 1]`: request 0 answers the
deploy command with a `jobid`, requests 1 and 2 are pending polls, every
later request reports success. -/
def send001 : Nat → List (String × JVal) → JObj
  | 0, _ => [("deployvirtualmachineresponse", .obj [("jobid", .num 1)])]
  | 1, _ => pollPending
  | 2, _ => pollPending
  | _ + 3, _ => [("queryasyncjobresultresponse", pollDoneBody)]

/-- Transport for the job-status sequence `[0, 2]`: request 0 answers the
deploy command, request 1 is a pending poll, every later request reports the
failure terminal state. -/
def send02 : Nat → List (String × JVal) → JObj
  | 0, _ => [("deployvirtualmachineresponse", .obj [("jobid", .num 1)])]
  | 1, _ => pollPending
  | _ + 2, _ => [("queryasyncjobresultresponse", pollFailBody)]

/-! ## Fixtures: one VM with two attached addresses (the `list_nodes` scenario) -/

/-- The VM record of the `list_nodes` scenario. -/
def vmFix : JVal :=
  .obj [("id", .str "vm1"), ("displayname", .str "node1"),
        ("state", .str "Running"),
        ("nic", .arr [.obj [("ipaddress", .str "10.0.0.1")]]),
        ("zoneid", .str "z1")]

/-- First public address, attached to `vm1`. -/
def addrFixA : JVal :=
  .obj [("virtualmachineid", .str "vm1"), ("ipaddress", .str "1.1.1.1"),
        ("id", .str "ipA")]

/-- Second public address, attached to `vm1`. -/
def addrFixB : JVal :=
  .obj [("virtualmachineid", .str "vm1"), ("ipaddress", .str "2.2.2.2"),
        ("id", .str "ipB")]

/-- The sync interface of the `list_nodes` scenario: one VM, two attached
addresses, and a fixed forwarding-rule listing `rs` (the rules the server
holds, all attached to those addresses). -/
def c4api (rs : List JVal) : SyncApi := fun req =>
  if req.command == "listVirtualMachines" then
    .ok (.obj [("virtualmachine", .arr [vmFix])])
  else if req.command == "listPublicIpAddresses" then
    .ok (.obj [("publicipaddress", .arr [addrFixA, addrFixB])])
  else if req.command == "listIpForwardingRules" then
    .ok (.obj [("ipforwardingrule", .arr rs)])
  else .error (.typeError "unexpected request")

/-- A well-formed forwarding-rule record: the four fields `list_nodes` reads
are present and `protocol` is a string. -/
def ruleOkJ (r : JVal) : Bool :=
  match r with
  | .obj o =>
      (jLookup o "id").isSome &&
      (match jLookup o "protocol" with
       | some (.str _) => true
       | _ => false) &&
      (jLookup o "startport").isSome && (jLookup o "endport").isSome
  | _ => false

/-- A concrete well-formed forwarding rule. -/
def ruleFix : JVal :=
  .obj [("id", .str "r1"), ("protocol", .str "tcp"),
        ("startport", .num 33), ("endport", .num 34)]

/-! # Proof infrastructure: the byte-string order -/

theorem charToNatInj {a b : Char} (h : a.toNat = b.toNat) : a = b :=
  Char.ext (UInt32.ext h)

theorem lexLt_irrefl (l : List Char) : lexLt l l = false := by
  induction l with
  | nil => rfl
  | cons a as ih => simp [lexLt, ih]

theorem lexLt_asymm (a : List Char) : ∀ b, lexLt a b = true → lexLt b a = false := by
  induction a with
  | nil =>
    intro b h
    cases b with
    | nil => simp [lexLt] at h
    | cons y ys => simp [lexLt]
  | cons x xs ih =>
    intro b h
    cases b with
    | nil => simp [lexLt] at h
    | cons y ys =>
      simp only [lexLt, Bool.or_eq_true, Bool.and_eq_true, decide_eq_true_eq,
        beq_iff_eq] at h
      simp only [lexLt, Bool.or_eq_false_iff, Bool.and_eq_false_iff,
        decide_eq_false_iff_not, beq_eq_false_iff_ne, ne_eq]
      rcases h with h | ⟨he, hr⟩
      · exact ⟨by omega, Or.inl (by omega)⟩
      · exact ⟨by omega, Or.inr (ih ys hr)⟩

theorem lexLt_trans (a : List Char) :
    ∀ b c, lexLt a b = true → lexLt b c = true → lexLt a c = true := by
  induction a with
  | nil =>
    intro b c h1 h2
    cases b with
    | nil => simp [lexLt] at h1
    | cons y ys =>
      cases c with
      | nil => simp [lexLt] at h2
      | cons z zs => simp [lexLt]
  | cons x xs ih =>
    intro b c h1 h2
    cases b with
    | nil => simp [lexLt] at h1
    | cons y ys =>
      cases c with
      | nil => simp [lexLt] at h2
      | cons z zs =>
        simp only [lexLt, Bool.or_eq_true, Bool.and_eq_true, decide_eq_true_eq,
          beq_iff_eq] at h1 h2 ⊢
        rcases h1 with h1 | ⟨he1, hr1⟩
        · rcases h2 with h2 | ⟨he2, hr2⟩
          · exact Or.inl (by omega)
          · exact Or.inl (by omega)
        · rcases h2 with h2 | ⟨he2, hr2⟩
          · exact Or.inl (by omega)
          · exact Or.inr ⟨by omega, ih ys zs hr1 hr2⟩

theorem lexLt_eq_of_not (a : List Char) :
    ∀ b, lexLt a b = false → lexLt b a = false → a = b := by
  induction a with
  | nil =>
    intro b h1 _
    cases b with
    | nil => rfl
    | cons y ys => simp [lexLt] at h1
  | cons x xs ih =>
    intro b h1 h2
    cases b with
    | nil => simp [lexLt] at h2
    | cons y ys =>
      simp only [lexLt, Bool.or_eq_false_iff, Bool.and_eq_false_iff,
        decide_eq_false_iff_not, beq_eq_false_iff_ne, ne_eq] at h1 h2
      obtain ⟨h1a, h1b⟩ := h1
      obtain ⟨h2a, h2b⟩ := h2
      have hxy : x = y := charToNatInj (by omega)
      subst hxy
      rcases h1b with hne | hr1
      · exact absurd rfl hne
      · rcases h2b with hne | hr2
        · exact absurd rfl hne
        · rw [ih ys hr1 hr2]

theorem lexLt_le_trans (a b c : List Char) (h1 : lexLt b a = false)
    (h2 : lexLt c b = false) : lexLt c a = false := by
  cases hab : lexLt a b with
  | false =>
    have : a = b := lexLt_eq_of_not a b hab h1
    subst this
    exact h2
  | true =>
    cases hca : lexLt c a with
    | false => rfl
    | true =>
      have := lexLt_trans c a b hca hab
      rw [this] at h2
      exact h2

instance : IsTrans (String × String) keyLeP :=
  ⟨fun a b c h1 h2 => lexLt_le_trans a.1.data b.1.data c.1.data h1 h2⟩

instance : IsTotal (String × String) keyLeP :=
  ⟨fun a b => by
    cases h : lexLt b.1.data a.1.data with
    | false => exact Or.inl h
    | true => exact Or.inr (lexLt_asymm _ _ h)⟩

instance : IsAntisymm (String × String) keyLtP :=
  ⟨fun a b h1 h2 => by
    have h3 := lexLt_asymm _ _ h1
    rw [keyLtP] at h2
    rw [h3] at h2
    exact Bool.noConfusion h2⟩

/-! ### The two sort relations agree; joins agree -/

theorem specKeyLe_iff (a b : String × String) : specKeyLe a b ↔ keyLeP a b := by
  constructor
  · intro h
    rcases h with he | hlt
    · rw [keyLeP, ← he, lexLt_irrefl]
    · exact lexLt_asymm _ _ hlt
  · intro h
    cases hab : lexLt a.1.data b.1.data with
    | true => exact Or.inr hab
    | false => exact Or.inl (congrArg String.data (String.ext (lexLt_eq_of_not _ _ hab h)))

theorem orderedInsert_congr (r s : α → α → Prop) [DecidableRel r] [DecidableRel s]
    (hrs : ∀ x y, r x y ↔ s x y) (a : α) :
    ∀ l, List.orderedInsert r a l = List.orderedInsert s a l := by
  intro l
  induction l with
  | nil => rfl
  | cons b bs ih =>
    simp only [List.orderedInsert]
    by_cases h : r a b
    · rw [if_pos h, if_pos ((hrs a b).mp h)]
    · rw [if_neg h, if_neg (fun hs => h ((hrs a b).mpr hs)), ih]

theorem insertionSort_congr (r s : α → α → Prop) [DecidableRel r] [DecidableRel s]
    (hrs : ∀ x y, r x y ↔ s x y) :
    ∀ l, List.insertionSort r l = List.insertionSort s l := by
  intro l
  induction l with
  | nil => rfl
  | cons b bs ih =>
    simp only [List.insertionSort]
    rw [ih, orderedInsert_congr r s hrs]

theorem joinAmp_eq_foldl (xs : List (List Char)) :
    ∀ x, joinAmp (x :: xs) = xs.foldl (fun acc p => acc ++ '&' :: p) x := by
  induction xs with
  | nil => intro x; rfl
  | cons y ys ih =>
    intro x
    rw [List.foldl_cons, ← ih (x ++ '&' :: y)]
    cases ys with
    | nil => rfl
    | cons z zs => simp [joinAmp]

theorem replacePlus_count (s : List Char) : (replacePlus s).count '+' = 0 := by
  induction s with
  | nil => rfl
  | cons c cs ih =>
    have hstep : replacePlus (c :: cs) =
        (if c == '+' then ['%', '2', '0'] else [c]) ++ replacePlus cs := rfl
    rw [hstep, List.count_append, ih]
    by_cases h : c = '+'
    · subst h; rfl
    · simp [List.count_cons, h]

/-- The canonical string of spec §4.1 coincides with the string the source
signs. -/
theorem specCanonical_eq (params : List (String × String)) :
    specCanonicalString params = pre_connect_signedString params := by
  dsimp only [specCanonicalString, pre_connect_signedString, urlencode]
  rw [insertionSort_congr specKeyLe keyLeP specKeyLe_iff]
  cases h : (List.insertionSort keyLeP (params.map fun kv => (pyLower kv.1, kv.2))).map encodePair with
  | nil => rfl
  | cons x xs => rw [joinAmp_eq_foldl]

/-! ### Stable sort of a key-distinct permutation -/

theorem pairwise_keyLtP_of_sorted {l : List (String × String)}
    (hs : List.Pairwise keyLeP l) (hn : (l.map (·.1)).Nodup) :
    List.Pairwise keyLtP l := by
  have hne : List.Pairwise (fun a b : String × String => a.1 ≠ b.1) l :=
    List.pairwise_map.mp hn
  refine (hs.and hne).imp ?_
  intro a b hab
  obtain ⟨hle, hne'⟩ := hab
  cases h : lexLt a.1.data b.1.data with
  | true => exact h
  | false => exact absurd (String.ext (lexLt_eq_of_not _ _ h hle)) hne'

theorem insertionSort_eq_of_perm {p₁ p₂ : List (String × String)}
    (hp : p₁.Perm p₂) (hn : (p₁.map (·.1)).Nodup) :
    List.insertionSort keyLeP p₁ = List.insertionSort keyLeP p₂ := by
  have e₁ := List.perm_insertionSort keyLeP p₁
  have e₂ := List.perm_insertionSort keyLeP p₂
  have hp' : (List.insertionSort keyLeP p₁).Perm (List.insertionSort keyLeP p₂) :=
    e₁.trans (hp.trans e₂.symm)
  have hn₁ : ((List.insertionSort keyLeP p₁).map (·.1)).Nodup :=
    ((e₁.map (·.1)).symm).nodup hn
  have hn₂ : ((List.insertionSort keyLeP p₂).map (·.1)).Nodup :=
    ((e₂.map (·.1)).symm).nodup ((hp.map (·.1)).nodup hn)
  exact List.eq_of_perm_of_sorted hp'
    (pairwise_keyLtP_of_sorted (List.sorted_insertionSort keyLeP p₁) hn₁)
    (pairwise_keyLtP_of_sorted (List.sorted_insertionSort keyLeP p₂) hn₂)

theorem signedString_of_perm {p₁ p₂ : List (String × String)} (hp : p₁.Perm p₂)
    (hn : (p₁.map fun kv => pyLower kv.1).Nodup) :
    pre_connect_signedString p₁ = pre_connect_signedString p₂ := by
  dsimp only [pre_connect_signedString]
  have hmap : (p₁.map fun kv => (pyLower kv.1, kv.2)).Perm
      (p₂.map fun kv => (pyLower kv.1, kv.2)) := hp.map _
  have hkeys : ((p₁.map fun kv => (pyLower kv.1, kv.2)).map (·.1)).Nodup := by
    simpa [List.map_map, Function.comp] using hn
  rw [insertionSort_eq_of_perm hmap hkeys]

/-! # Claim C3: the signer transform -/

/-- C3: the signature is computed by (a) lower-casing parameter keys,
(b) sorting the pairs lexicographically by lower-cased key, (c) URL-encoding
and concatenating the sorted pairs in `key=value&key=value` form,
(d) lower-casing the whole encoded string and replacing every `+` with the
literal `%20` (so a parameter value containing a space appears as `%20`, not
`+`, in the signed string), (e) computing HMAC-SHA1 over that string with the
secret key, and (f) base64-encoding the digest.  Stated as: the signature of
`pre_connect_hook` equals the spec-worded pipeline `specSignature` for every
key and parameter set; the signed string never contains a `+` byte; and for a
value containing a space the signed string carries `%20` in its place. -/
theorem c3_signer_transform :
    (∀ (key : String) (params : List (String × String)),
        specSignature key params = pre_connect_signature key params) ∧
    (∀ params : List (String × String),
        (pre_connect_signedString params).count '+' = 0) ∧
    pre_connect_signedString [("key", "a b")] = "key=a%20b".data :=
  ⟨fun key params => by
      dsimp only [specSignature, pre_connect_signature]
      rw [specCanonical_eq],
   fun params => replacePlus_count _,
   by decide⟩

/-! # Claim C8: signature determinism under re-ordering -/

/-- C8 as stated is refuted at this input: the two parameter lists present
the same parameter mapping (they are permutations of one another, with the
two distinct keys `A` and `a`), yet the signatures differ, because the two
keys collide once lower-cased and Python's stable sort then keeps the two
pairs in their presentation order. -/
theorem c8_counterexample :
    ([(("A" : String), ("x" : String)), ("a", "y")]).Perm [("a", "y"), ("A", "x")] ∧
    (pre_connect_signature "secret" [("A", "x"), ("a", "y")] ==
      pre_connect_signature "secret" [("a", "y"), ("A", "x")]) = false :=
  ⟨List.Perm.swap _ _ _, by decide⟩

/-- C8 amended: for every two presentations of the same parameter set that
differ only in key order, signing them with the same secret key yields
identical signature strings, provided the lower-cased parameter keys are
pairwise distinct (the counterexample shows the proviso is necessary). -/
theorem c8_signature_order_invariance (key : String)
    (p₁ p₂ : List (String × String)) (hp : p₁.Perm p₂)
    (hn : (p₁.map fun kv => pyLower kv.1).Nodup) :
    pre_connect_signature key p₁ = pre_connect_signature key p₂ := by
  dsimp only [pre_connect_signature]
  rw [signedString_of_perm hp hn]

/-- Witness for C8: a concrete scrambled presentation with distinct
lower-cased keys, discharged through `c8_signature_order_invariance`. -/
theorem c8_signature_order_invariance_witness :
    (([(("apiKey" : String), ("user" : String)), ("command", "listZones")]).Perm
        [("command", "listZones"), ("apiKey", "user")]) ∧
    (([(("apiKey" : String), ("user" : String)), ("command", "listZones")].map
        fun kv => pyLower kv.1).Nodup) ∧
    pre_connect_signature "secret" [("apiKey", "user"), ("command", "listZones")] =
      pre_connect_signature "secret" [("command", "listZones"), ("apiKey", "user")] :=
  ⟨List.Perm.swap _ _ _, by decide,
   c8_signature_order_invariance "secret" _ _ (List.Perm.swap _ _ _) (by decide)⟩

/-! # Claim C1: the asynchronous poll loop -/

theorem asyncLoop_send001 (fuel : Nat) :
    ∀ n, asyncLoop send001 (.num 1) (n + 1) fuel = .ok none := by
  induction fuel with
  | zero => intro n; rfl
  | succ fuel ih =>
    intro n
    match n with
    | 0 => exact ih 1
    | 1 => exact ih 2
    | m + 2 => exact ih (m + 3)

theorem asyncLoop_send02 (fuel : Nat) :
    ∀ n, asyncLoop send02 (.num 1) (n + 1) fuel = .ok none := by
  induction fuel with
  | zero => intro n; rfl
  | succ fuel ih =>
    intro n
    match n with
    | 0 => exact ih 1
    | m + 1 => exact ih (m + 2)

theorem asyncRequest_of_loop_none {send : Nat → List (String × JVal) → JObj}
    {command : String} {kwargs : List (String × JVal)} {fuel : Nat} {r0 jobid : JVal}
    (hsync : syncRequest (send 0) command kwargs = .ok r0)
    (hjob : jIndex r0 "jobid" = .ok jobid)
    (hloop : asyncLoop send jobid 1 fuel = .ok none) :
    asyncRequest send command kwargs fuel = .ok none := by
  unfold asyncRequest
  simp only [hsync, hjob, hloop]

/-- C1: the claim says the poll loop of `_async_request` continues (after
waiting the poll interval) while `jobstatus` is `0` and terminates when it
becomes nonzero, returning `(True, jobresult)` for the status sequence
`[0, 0, 1]` and `(False, failure payload)` for `[0, 2]`.  The source loop
contains no `break`: after a nonzero `jobstatus` it sleeps and polls again
(and while pending it skips the sleep), so the call never returns for either
scenario — for every fuel bound the loop is still running (`.ok none`).  The
dead code after the loop (`asyncFinish`) would indeed have produced
`(True, jobresult)` resp. `(False, payload)` from the terminal polls, which
is what the claim (and the docstring) describe. -/
theorem c1_async_polling_never_returns :
    (∀ fuel, asyncRequest send001 "deployVirtualMachine" [] fuel = .ok none) ∧
    (∀ fuel, asyncRequest send02 "deployVirtualMachine" [] fuel = .ok none) ∧
    asyncFinish pollDoneBody =
      .ok (true, .obj [("virtualmachine", .obj [("id", .str "vm1")])]) ∧
    asyncFinish pollFailBody = .ok (false, pollFailBody) :=
  ⟨fun fuel => asyncRequest_of_loop_none rfl rfl (asyncLoop_send001 fuel 0),
   fun fuel => asyncRequest_of_loop_none rfl rfl (asyncLoop_send02 fuel 0),
   rfl, rfl⟩

/-! # Claim C2: the synchronous request -/

/-- C2: the claim says `_sync_request` adds `command=<name>` to the
parameters, returns the object nested under `lower(command) + "response"`
when that key is present, and fails with `MalformedResponseError` when it is
absent.  The first two parts hold (first conjunct: the transport receives the
parameters with `command` appended; second conjunct: the `listZones` example
returns `{"zone": []}`).  The third part does not: on the missing-key input
the `raise MalformedResponseError(..., body=result.body, ...)` statement
evaluates `result.body` on the decoded `dict`, which has no such attribute,
so the call dies with `AttributeError` before any `MalformedResponseError`
is constructed. -/
theorem c2_sync_request_behaviour :
    syncRequest (fun sent => [("listzonesresponse", .obj sent)]) "listZones"
        [("zoneid", .str "z1")] =
      .ok (.obj [("zoneid", .str "z1"), ("command", .str "listZones")]) ∧
    syncRequest (fun _ => [("listzonesresponse", .obj [("zone", .arr [])])])
        "listZones" [] = .ok (.obj [("zone", .arr [])]) ∧
    syncRequest (fun _ => [("somethingelseresponse", .obj [])]) "listZones" [] =
      .error (.attributeError "body") :=
  ⟨rfl, rfl, rfl⟩

/-! # Claim C7: protocol validation in `ex_add_ip_forwarding_rule` -/

/-- C7: for every protocol string that is not TCP or UDP (after the
upper-casing the source applies, e.g. `"ICMP"`), the call returns `None`,
raises no error, and issues no request. -/
theorem c7_invalid_protocol_returns_none (async : AsyncApi) (node : CSNode)
    (address : CSAddress) (protocol : String) (start_port : Int)
    (end_port : Option Int)
    (h : (pyUpper protocol == "TCP" || pyUpper protocol == "UDP") = false) :
    ex_add_ip_forwarding_rule async node address protocol start_port end_port =
      (.ok none, []) := by
  simp [ex_add_ip_forwarding_rule, h]

/-- Witness for C7 at protocol `"ICMP"`, with a transport that would fail on
any request at all. -/
theorem c7_invalid_protocol_returns_none_witness :
    ((pyUpper "ICMP" == "TCP" || pyUpper "ICMP" == "UDP") = false) ∧
    ex_add_ip_forwarding_rule (fun _ => .error (.typeError "no request expected"))
        ⟨.str "vm1", .null, .running, [], [], []⟩ ⟨.str "ipA", .str "1.1.1.1"⟩
        "ICMP" 33 none = (.ok none, []) :=
  ⟨by decide,
   c7_invalid_protocol_returns_none _ _ _ "ICMP" 33 none (by decide)⟩

/-! # Claim C10: `ex_add_ip_forwarding_rule` ignores the success flag -/

/-- C10: for a valid protocol, `ex_add_ip_forwarding_rule` never consults the
success flag of the asynchronous job: its outcome depends only on the result
payload (first conjunct: two interfaces whose answers differ only in the
flag produce identical outcomes), and when the job reports failure with a
failure payload (no `ipforwardingrule` field) the call does not return `None`
but dies reading the payload (`KeyError` on `ipforwardingrule`). -/
theorem c10_ex_add_ignores_success_flag :
    (∀ (async₁ async₂ : AsyncApi) (node : CSNode) (address : CSAddress)
        (protocol : String) (start_port : Int) (end_port : Option Int)
        (b₁ b₂ : Bool) (payload : JVal),
        async₁ ⟨"createIpForwardingRule",
            ruleArgs address (pyUpper protocol) start_port end_port⟩ = .ok (b₁, payload) →
        async₂ ⟨"createIpForwardingRule",
            ruleArgs address (pyUpper protocol) start_port end_port⟩ = .ok (b₂, payload) →
        ex_add_ip_forwarding_rule async₁ node address protocol start_port end_port =
          ex_add_ip_forwarding_rule async₂ node address protocol start_port end_port) ∧
    (∀ (async : AsyncApi) (node : CSNode) (address : CSAddress)
        (protocol : String) (start_port : Int) (end_port : Option Int)
        (payload : List (String × JVal)),
        (pyUpper protocol == "TCP" || pyUpper protocol == "UDP") = true →
        async ⟨"createIpForwardingRule",
            ruleArgs address (pyUpper protocol) start_port end_port⟩ =
          .ok (false, .obj payload) →
        jLookup payload "ipforwardingrule" = none →
        ex_add_ip_forwarding_rule async node address protocol start_port end_port =
          (.error (.keyError "ipforwardingrule"),
           [⟨"createIpForwardingRule",
             ruleArgs address (pyUpper protocol) start_port end_port⟩])) := by
  constructor
  · intro async₁ async₂ node address protocol start_port end_port b₁ b₂ payload h₁ h₂
    cases hv : (pyUpper protocol == "TCP" || pyUpper protocol == "UDP") with
    | false => simp [ex_add_ip_forwarding_rule, hv]
    | true => simp [ex_add_ip_forwarding_rule, hv, h₁, h₂]
  · intro async node address protocol start_port end_port payload hv hf hmiss
    simp [ex_add_ip_forwarding_rule, hv, hf, jIndex, hmiss]

/-- Witness for C10: a `createIpForwardingRule` job answering a failure
payload `{"errorcode": 431}`; flipping the flag leaves the outcome unchanged,
and with `success = False` the call fails with the `KeyError` instead of
returning `None`. -/
theorem c10_ex_add_ignores_success_flag_witness :
    ex_add_ip_forwarding_rule (fun _ => .ok (true, .obj [("errorcode", .num 431)]))
        ⟨.str "vm1", .null, .running, [], [], []⟩ ⟨.str "ipA", .str "1.1.1.1"⟩
        "TCP" 33 none =
      ex_add_ip_forwarding_rule (fun _ => .ok (false, .obj [("errorcode", .num 431)]))
        ⟨.str "vm1", .null, .running, [], [], []⟩ ⟨.str "ipA", .str "1.1.1.1"⟩
        "TCP" 33 none ∧
    ex_add_ip_forwarding_rule (fun _ => .ok (false, .obj [("errorcode", .num 431)]))
        ⟨.str "vm1", .null, .running, [], [], []⟩ ⟨.str "ipA", .str "1.1.1.1"⟩
        "TCP" 33 none =
      (.error (.keyError "ipforwardingrule"),
       [⟨"createIpForwardingRule",
         ruleArgs ⟨.str "ipA", .str "1.1.1.1"⟩ (pyUpper "TCP") 33 none⟩]) :=
  ⟨c10_ex_add_ignores_success_flag.1 _ _ _ _ "TCP" 33 none true false _ rfl rfl,
   c10_ex_add_ignores_success_flag.2 _ _ _ "TCP" 33 none
     [("errorcode", .num 431)] (by decide) rfl rfl⟩

/-! # Claim C5: `ex_release_public_ip` -/

theorem removeFirstP_of_countP_one {p : α → Bool} :
    ∀ {l : List α}, l.countP p = 1 →
      ∃ l2, removeFirstP p l = some l2 ∧ l2.countP p = 0 := by
  intro l
  induction l with
  | nil => intro h; simp [List.countP_nil] at h
  | cons x xs ih =>
    intro h
    cases hx : p x with
    | true =>
      rw [List.countP_cons, hx, if_pos rfl] at h
      exact ⟨xs, by simp [removeFirstP, hx], by omega⟩
    | false =>
      rw [List.countP_cons, hx, if_neg Bool.false_ne_true, Nat.add_zero] at h
      obtain ⟨l2, hrm, h0⟩ := ih h
      exact ⟨x :: l2, by simp [removeFirstP, hx, hrm],
             by simp [List.countP_cons, hx, h0]⟩

theorem removeFirstP_of_countP_zero {p : α → Bool} :
    ∀ {l : List α}, l.countP p = 0 → removeFirstP p l = none := by
  intro l
  induction l with
  | nil => intro _; rfl
  | cons x xs ih =>
    intro h
    cases hx : p x with
    | true =>
      rw [List.countP_cons, hx, if_pos rfl] at h
      exact absurd h (by omega)
    | false =>
      rw [List.countP_cons, hx, if_neg Bool.false_ne_true, Nat.add_zero] at h
      simp [removeFirstP, hx, ih h]

theorem lookup_map_set {β : Type} (k : String) (v : β) :
    ∀ (e : List (String × β)), (e.lookup k).isSome = true →
      (e.map fun kv => if kv.1 == k then (kv.1, v) else kv).lookup k = some v := by
  intro e
  induction e with
  | nil => intro h; simp [List.lookup] at h
  | cons kv es ih =>
    obtain ⟨k1, v1⟩ := kv
    intro h
    by_cases hk : k1 = k
    · subst hk
      simp only [List.map_cons]
      rw [if_pos (beq_self_eq_true k1)]
      simp [List.lookup]
    · have hk1 : (k1 == k) = false := beq_eq_false_iff_ne.mpr hk
      have hk2 : (k == k1) = false := beq_eq_false_iff_ne.mpr fun he => hk he.symm
      simp only [List.lookup, hk2] at h
      simp only [List.map_cons]
      rw [if_neg (by simp [hk1])]
      simp only [List.lookup, hk2]
      exact ih h

theorem lookup_append_set {β : Type} (k : String) (v : β) :
    ∀ (e : List (String × β)), (e.lookup k).isSome = false →
      (e ++ [(k, v)]).lookup k = some v := by
  intro e
  induction e with
  | nil => intro _; simp [List.lookup]
  | cons kv es ih =>
    obtain ⟨k1, v1⟩ := kv
    intro h
    cases hk : k == k1 with
    | true => simp only [List.lookup, hk] at h; simp at h
    | false =>
      simp only [List.lookup, hk] at h
      simp only [List.cons_append, List.lookup, hk]
      exact ih h

theorem extraLookup_extraSet (e : List (String × ExtraVal)) (k : String)
    (v : ExtraVal) : extraLookup (extraSet e k v) k = some v := by
  cases h : (e.lookup k).isSome with
  | true =>
    have hs : extraSet e k v = e.map fun kv => if kv.1 == k then (kv.1, v) else kv := by
      unfold extraSet
      rw [if_pos h]
    rw [extraLookup, hs]
    exact lookup_map_set k v e h
  | false =>
    have hs : extraSet e k v = e ++ [(k, v)] := by
      unfold extraSet
      rw [if_neg (by simp [h])]
    rw [extraLookup, hs]
    exact lookup_append_set k v e h

/-- C5: for every node and address attached to it (appearing exactly once in
the node's address list and public-IP list), `ex_release_public_ip` removes
the address from both lists before the remote calls, issues `disableStaticNat`
and then `disassociateIpAddress`, ignores the disable result (the returned
flag is the disassociate flag `s₂`, whatever the disable call answered), and
the returned node's lists no longer contain the address. Second conjunct:
when the address is not attached, the local removal raises `ValueError`
before any request is issued — the removal precedes the remote calls. -/
theorem c5_ex_release_public_ip :
    (∀ (async : AsyncApi) (node : CSNode) (address : CSAddress)
        (alist : List CSAddress) (d₁ s₂ : Bool) (p₁ p₂ : JVal),
        extraLookup node.extra "ip_addresses" = some (.addrList alist) →
        alist.countP (fun a => jScalarEq a.id address.id) = 1 →
        node.public_ip.countP (fun x => jScalarEq x address.address) = 1 →
        async ⟨"disableStaticNat", [("ipaddressid", address.id)]⟩ = .ok (d₁, p₁) →
        async ⟨"disassociateIpAddress", [("id", address.id)]⟩ = .ok (s₂, p₂) →
        ∃ node₂,
          ex_release_public_ip async node address =
            (.ok (s₂, node₂),
             [⟨"disableStaticNat", [("ipaddressid", address.id)]⟩,
              ⟨"disassociateIpAddress", [("id", address.id)]⟩]) ∧
          (nodeAddrList node₂).countP (fun a => jScalarEq a.id address.id) = 0 ∧
          node₂.public_ip.countP (fun x => jScalarEq x address.address) = 0) ∧
    (∀ (async : AsyncApi) (node : CSNode) (address : CSAddress)
        (alist : List CSAddress),
        extraLookup node.extra "ip_addresses" = some (.addrList alist) →
        alist.countP (fun a => jScalarEq a.id address.id) = 0 →
        ex_release_public_ip async node address =
          (.error (.valueError "list.remove"), [])) := by
  constructor
  · intro async node address alist d₁ s₂ p₁ p₂ hextra hcount hip hdis hrel
    obtain ⟨al2, hrm, hc0⟩ := removeFirstP_of_countP_one hcount
    obtain ⟨ips2, hrm2, hip0⟩ := removeFirstP_of_countP_one hip
    refine ⟨CSNode.mk node.id node.name node.state ips2 node.private_ip
      (extraSet node.extra "ip_addresses" (.addrList al2)), ?_, ?_, ?_⟩
    · unfold ex_release_public_ip
      simp only [hextra, hrm, hrm2, hdis, hrel]
    · simp only [nodeAddrList, extraLookup_extraSet]
      exact hc0
    · exact hip0
  · intro async node address alist hextra hmiss
    unfold ex_release_public_ip
    simp only [hextra, removeFirstP_of_countP_zero hmiss]

/-- Witness for C5: one attached address; the disable-NAT call reports
failure (`False`) and is ignored; the call returns the disassociate flag
`True` and the returned node's lists are empty of the address. -/
theorem c5_ex_release_public_ip_witness :
    ∃ node₂,
      ex_release_public_ip
          (fun req => if req.command == "disassociateIpAddress"
                      then .ok (true, .null) else .ok (false, .null))
          ⟨.str "vm1", .null, .running, [.str "1.2.3.4"], [],
           [("zoneid", .jval (.str "z1")),
            ("ip_addresses", .addrList [⟨.str "ipA", .str "1.2.3.4"⟩])]⟩
          ⟨.str "ipA", .str "1.2.3.4"⟩ =
        (.ok (true, node₂),
         [⟨"disableStaticNat", [("ipaddressid", .str "ipA")]⟩,
          ⟨"disassociateIpAddress", [("id", .str "ipA")]⟩]) ∧
      (nodeAddrList node₂).countP (fun a => jScalarEq a.id (.str "ipA")) = 0 ∧
      node₂.public_ip.countP (fun x => jScalarEq x (.str "1.2.3.4")) = 0 ∧
      ex_release_public_ip (fun _ => .ok (true, .null))
          ⟨.str "vm1", .null, .running, [], [], [("ip_addresses", .addrList [])]⟩
          ⟨.str "ipZ", .str "9.9.9.9"⟩ =
        (.error (.valueError "list.remove"), []) :=
  by
  obtain ⟨n, h1, h2, h3⟩ := c5_ex_release_public_ip.1
    (fun req => if req.command == "disassociateIpAddress"
                then .ok (true, .null) else .ok (false, .null))
    ⟨.str "vm1", .null, .running, [.str "1.2.3.4"], [],
     [("zoneid", .jval (.str "z1")),
      ("ip_addresses", .addrList [⟨.str "ipA", .str "1.2.3.4"⟩])]⟩
    ⟨.str "ipA", .str "1.2.3.4"⟩ [⟨.str "ipA", .str "1.2.3.4"⟩]
    false true .null .null rfl (by decide) (by decide) rfl rfl
  exact ⟨n, h1, h2, h3, c5_ex_release_public_ip.2 _ _ _ [] rfl (by decide)⟩

/-! # Claim C6: the undefined failure path of `create_node` -/

/-- C6: when the asynchronous `deployVirtualMachine` job reports failure,
`create_node` executes `fail()` — a name defined nowhere in the module — so
the call raises `NameError` and returns no node; no defined, descriptive
job-failure error is raised (the embedded error is the undefined-name
error, not a malformed-response or job-failure value). -/
theorem c6_create_node_failure_is_undefined_name (sync : SyncApi)
    (async : AsyncApi) (name : String)
    (size_id image_id loc networkId failPayload net0 : JVal) (rest : List JVal)
    (hnet : sync ⟨"listNetworks", []⟩ = .ok (.obj [("network", .arr (net0 :: rest))]))
    (hid : jIndex net0 "id" = .ok networkId)
    (hfail : async ⟨"deployVirtualMachine",
        [("name", .str name), ("displayname", .str name),
         ("serviceofferingid", size_id), ("templateid", image_id),
         ("zoneid", loc), ("networkids", networkId)]⟩ = .ok (false, failPayload)) :
    create_node sync async name size_id image_id (some loc) =
      .error (.nameError "fail") := by
  unfold create_node
  simp only [hnet,
    show jIndex (JVal.obj [("network", JVal.arr (net0 :: rest))]) "network" =
      Except.ok (JVal.arr (net0 :: rest)) from rfl,
    hid, hfail]

/-- Witness for C6: a concrete network listing and a deploy job answering
`success = False` with an error payload. -/
theorem c6_create_node_failure_is_undefined_name_witness :
    create_node
        (fun req => if req.command == "listNetworks"
          then .ok (.obj [("network", .arr [.obj [("id", .str "net1")]])])
          else .error (.typeError "unexpected request"))
        (fun _ => .ok (false, .obj [("errorcode", .num 431)]))
        "newvm" (.str "so1") (.str "tpl1") (some (.str "z1")) =
      .error (.nameError "fail") :=
  c6_create_node_failure_is_undefined_name _ _ "newvm" (.str "so1") (.str "tpl1")
    (.str "z1") (.str "net1") (.obj [("errorcode", .num 431)])
    (.obj [("id", .str "net1")]) [] rfl rfl rfl

/-! # Claim C9: the `forwarding_rules` / `ip_forwarding_rules` key mismatch -/

/-- C9: every node returned by `create_node` carries its rule list under the
extra key `forwarding_rules` (as an empty list) and has no
`ip_forwarding_rules` key — the key `list_nodes` populates and
`ex_add_ip_forwarding_rule` appends to.  Consequently (second conjunct),
calling `ex_add_ip_forwarding_rule` with a valid protocol on a node whose
extras lack `ip_forwarding_rules` reaches the append and dies with
`KeyError('ip_forwarding_rules')` even though the job succeeded and returned
a well-formed rule. -/
theorem c9_create_node_extra_key_mismatch :
    (∀ (sync : SyncApi) (async : AsyncApi) (name : String)
        (size_id image_id : JVal) (location_id : Option JVal) (node : CSNode),
        create_node sync async name size_id image_id location_id = .ok node →
        extraLookup node.extra "forwarding_rules" = some (.ruleList []) ∧
        extraLookup node.extra "ip_forwarding_rules" = none) ∧
    (∀ (async : AsyncApi) (node : CSNode) (address : CSAddress)
        (protocol : String) (start_port : Int) (rid : JVal),
        pyUpper protocol = "TCP" →
        extraLookup node.extra "ip_forwarding_rules" = none →
        async ⟨"createIpForwardingRule", ruleArgs address "TCP" start_port none⟩ =
          .ok (true, .obj [("ipforwardingrule", .obj [("id", rid)])]) →
        ex_add_ip_forwarding_rule async node address protocol start_port none =
          (.error (.keyError "ip_forwarding_rules"),
           [⟨"createIpForwardingRule", ruleArgs address "TCP" start_port none⟩])) := by
  constructor
  · intro sync async name size_id image_id location_id node h
    unfold create_node at h
    repeat' split at h
    all_goals cases h
    all_goals exact ⟨rfl, rfl⟩
  · intro async node address protocol start_port rid hv hmiss hok
    unfold ex_add_ip_forwarding_rule
    rw [hv]
    rw [if_pos (by decide)]
    simp only [hok,
      show jIndex (JVal.obj [("ipforwardingrule", JVal.obj [("id", rid)])])
          "ipforwardingrule" = Except.ok (JVal.obj [("id", rid)]) from rfl,
      show jIndex (JVal.obj [("id", rid)]) "id" = Except.ok rid from rfl,
      hmiss]

/-- Witness for C9: a fully concrete `create_node` success, followed by an
`ex_add_ip_forwarding_rule` call on the returned node. -/
theorem c9_create_node_extra_key_mismatch_witness :
    (extraLookup
        [("zoneid", ExtraVal.jval (.str "z1")), ("ip_addresses", .addrList []),
         ("forwarding_rules", .ruleList [])] "forwarding_rules" =
      some (.ruleList []) ∧
     extraLookup
        [("zoneid", ExtraVal.jval (.str "z1")), ("ip_addresses", .addrList []),
         ("forwarding_rules", .ruleList [])] "ip_forwarding_rules" = none) ∧
    ex_add_ip_forwarding_rule (fun _ => .ok (true,
          .obj [("ipforwardingrule", .obj [("id", .str "r1")])]))
        ⟨.str "vm2", .str "newvm", .running, [], [.str "10.0.0.2"],
         [("zoneid", ExtraVal.jval (.str "z1")), ("ip_addresses", .addrList []),
          ("forwarding_rules", .ruleList [])]⟩
        ⟨.str "ipA", .str "1.1.1.1"⟩ "TCP" 33 none =
      (.error (.keyError "ip_forwarding_rules"),
       [⟨"createIpForwardingRule",
         ruleArgs ⟨.str "ipA", .str "1.1.1.1"⟩ "TCP" 33 none⟩]) :=
  ⟨c9_create_node_extra_key_mismatch.1
      (fun req => if req.command == "listNetworks"
        then .ok (.obj [("network", .arr [.obj [("id", .str "net1")]])])
        else .error (.typeError "unexpected request"))
      (fun _ => .ok (true, .obj [("jobresult", .obj [("virtualmachine",
        .obj [("id", .str "vm2"), ("displayname", .str "newvm"),
              ("state", .str "Running"),
              ("nic", .arr [.obj [("ipaddress", .str "10.0.0.2")]])])])]))
      "newvm" (.str "so1") (.str "tpl1") (some (.str "z1"))
      ⟨.str "vm2", .str "newvm", .running, [], [.str "10.0.0.2"],
       [("zoneid", ExtraVal.jval (.str "z1")), ("ip_addresses", .addrList []),
        ("forwarding_rules", .ruleList [])]⟩ rfl,
   c9_create_node_extra_key_mismatch.2 _ _ _ "TCP" 33 (.str "r1") rfl rfl rfl⟩

/-! # Claim C4: `list_nodes` lengths -/

theorem ruleOfJson_ok (addr : CSAddress) (r : JVal) (h : ruleOkJ r = true) :
    ∃ rule, ruleOfJson addr r = .ok rule := by
  cases r with
  | str s => simp [ruleOkJ] at h
  | num n => simp [ruleOkJ] at h
  | null => simp [ruleOkJ] at h
  | arr l => simp [ruleOkJ] at h
  | obj o =>
    simp only [ruleOkJ, Bool.and_eq_true] at h
    obtain ⟨⟨⟨hid, hprot⟩, hsp⟩, hep⟩ := h
    obtain ⟨vid, hv⟩ := Option.isSome_iff_exists.mp hid
    obtain ⟨vs, hsv⟩ := Option.isSome_iff_exists.mp hsp
    obtain ⟨ve, hev⟩ := Option.isSome_iff_exists.mp hep
    cases hp : jLookup o "protocol" with
    | none => rw [hp] at hprot; simp at hprot
    | some pv =>
      rw [hp] at hprot
      cases pv with
      | str sp =>
        refine ⟨CSRule.mk vid addr (pyUpper sp) vs (some ve), ?_⟩
        unfold ruleOfJson
        simp only [jIndex, hv, hp, hsv, hev]
      | num n => simp at hprot
      | null => simp at hprot
      | arr l => simp at hprot
      | obj o2 => simp at hprot

theorem mapME_length {α β : Type} {f : α → Except PyErr β} :
    ∀ {l : List α}, (∀ x ∈ l, ∃ y, f x = .ok y) →
      ∃ ys, mapME f l = .ok ys ∧ ys.length = l.length := by
  intro l
  induction l with
  | nil => intro _; exact ⟨[], rfl, rfl⟩
  | cons x xs ih =>
    intro h
    obtain ⟨y, hy⟩ := h x (by simp)
    obtain ⟨ys, hys, hlen⟩ := ih (fun z hz => h z (by simp [hz]))
    refine ⟨y :: ys, ?_, by simp [hlen]⟩
    simp [mapME, hy, hys]

theorem foldlME_rules_length {sync : SyncApi} {rs : List JVal}
    (hsync : sync ⟨"listIpForwardingRules", []⟩ =
      .ok (.obj [("ipforwardingrule", .arr rs)]))
    (hok : ∀ r ∈ rs, ruleOkJ r = true) :
    ∀ (addrs : List CSAddress) (acc : List CSRule),
      ∃ out, foldlME (rulesLoopBody sync) acc addrs = .ok out ∧
        out.length = acc.length + addrs.length * rs.length := by
  intro addrs
  induction addrs with
  | nil => intro acc; exact ⟨acc, rfl, by simp⟩
  | cons a as ih =>
    intro acc
    obtain ⟨newRules, hmap, hmlen⟩ :=
      mapME_length (fun r hr => ruleOfJson_ok a r (hok r hr))
    obtain ⟨out, hfold, holen⟩ := ih (acc ++ newRules)
    have hbody : rulesLoopBody sync acc a = .ok (acc ++ newRules) := by
      unfold rulesLoopBody
      simp only [hsync,
        show jGet (JVal.obj [("ipforwardingrule", JVal.arr rs)])
            "ipforwardingrule" (JVal.arr []) = .ok (.arr rs) from rfl,
        hmap]
    refine ⟨out, ?_, ?_⟩
    · simp only [foldlME, hbody, hfold]
    · rw [holen]
      simp only [List.length_append, List.length_cons, hmlen]
      ring

/-- C4 amended: for the listing scenario with one VM, two attached public
addresses and a server-side rule listing of `N` well-formed rules (all
attached across those addresses), the returned node's `ip_addresses` extra
and its public-IP list have length 2, but its `ip_forwarding_rules` extra has
length `2 * N`, not `N`: `list_nodes` issues the unfiltered
`listIpForwardingRules` call once per address and appends every returned rule
each time. -/
theorem c4_list_nodes_lengths (rs : List JVal) (hok : ∀ r ∈ rs, ruleOkJ r = true) :
    ∃ node, list_nodes (c4api rs) = .ok [node] ∧
      (nodeAddrList node).length = 2 ∧ node.public_ip.length = 2 ∧
      (nodeRuleList node).length = 2 * rs.length := by
  obtain ⟨rules, hrl, hlen⟩ := foldlME_rules_length
    (show c4api rs ⟨"listIpForwardingRules", []⟩ =
      .ok (.obj [("ipforwardingrule", .arr rs)]) from rfl) hok
    [⟨.str "ipA", .str "1.1.1.1"⟩, ⟨.str "ipB", .str "2.2.2.2"⟩] []
  have hrl2 : rulesLoop (c4api rs)
      [⟨.str "ipA", .str "1.1.1.1"⟩, ⟨.str "ipB", .str "2.2.2.2"⟩] = .ok rules := hrl
  refine ⟨⟨.str "vm1", .str "node1", .running,
      [.str "1.1.1.1", .str "2.2.2.2"], [.str "10.0.0.1"],
      [("zoneid", .jval (.str "z1")),
       ("ip_addresses", .addrList
          [⟨.str "ipA", .str "1.1.1.1"⟩, ⟨.str "ipB", .str "2.2.2.2"⟩]),
       ("ip_forwarding_rules", .ruleList rules)]⟩, ?_, rfl, rfl, ?_⟩
  · unfold list_nodes nodeOfVm
    simp only [
      show c4api rs ⟨"listVirtualMachines", []⟩ =
        .ok (.obj [("virtualmachine", .arr [vmFix])]) from rfl,
      show c4api rs ⟨"listPublicIpAddresses", []⟩ =
        .ok (.obj [("publicipaddress", .arr [addrFixA, addrFixB])]) from rfl,
      show jIndex (JVal.obj [("publicipaddress", .arr [addrFixA, addrFixB])])
          "publicipaddress" = .ok (.arr [addrFixA, addrFixB]) from rfl,
      show buildPublicIps [addrFixA, addrFixB] =
        .ok [(JVal.str "vm1",
              [(JVal.str "1.1.1.1", JVal.str "ipA"),
               (JVal.str "2.2.2.2", JVal.str "ipB")])] from rfl,
      show jGet (JVal.obj [("virtualmachine", .arr [vmFix])]) "virtualmachine"
          (.arr []) = .ok (.arr [vmFix]) from rfl,
      mapME,
      show jIndex vmFix "id" = .ok (.str "vm1") from rfl,
      show jGet vmFix "displayname" .null = .ok (.str "node1") from rfl,
      show jIndex vmFix "state" = .ok (.str "Running") from rfl,
      show stateOf (.str "Running") = .ok .running from rfl,
      show List.find? (fun kv => jScalarEq kv.1 (JVal.str "vm1"))
          [(JVal.str "vm1",
            [(JVal.str "1.1.1.1", JVal.str "ipA"),
             (JVal.str "2.2.2.2", JVal.str "ipB")])] =
        some (JVal.str "vm1",
              [(JVal.str "1.1.1.1", JVal.str "ipA"),
               (JVal.str "2.2.2.2", JVal.str "ipB")]) from rfl,
      show jIndex vmFix "nic" =
        .ok (.arr [.obj [("ipaddress", .str "10.0.0.1")]]) from rfl,
      show jIndex (JVal.obj [("ipaddress", JVal.str "10.0.0.1")]) "ipaddress" =
        .ok (.str "10.0.0.1") from rfl,
      show jIndex vmFix "zoneid" = .ok (.str "z1") from rfl,
      Option.map_some', Option.getD_some, List.map_cons, List.map_nil,
      hrl2]
  · simp only [nodeRuleList, extraLookup,
      show List.lookup "ip_forwarding_rules"
          [("zoneid", ExtraVal.jval (.str "z1")),
           ("ip_addresses", ExtraVal.addrList
              [⟨.str "ipA", .str "1.1.1.1"⟩, ⟨.str "ipB", .str "2.2.2.2"⟩]),
           ("ip_forwarding_rules", ExtraVal.ruleList rules)] =
        some (ExtraVal.ruleList rules) from rfl]
    rw [hlen]
    simp

/-- C4 as stated is refuted at `N = 1`: with one VM, two attached addresses
and a single forwarding rule attached across them, the returned node's
`ip_addresses` extra has length 2 as claimed, but its `ip_forwarding_rules`
extra has length 2, not 1 — the one rule the server lists is appended once
per address. -/
theorem c4_counterexample :
    (match list_nodes (c4api [ruleFix]) with
     | .ok [node] => some ((nodeAddrList node).length, (nodeRuleList node).length)
     | _ => none) = some (2, 2) ∧ Nat.beq 2 1 = false :=
  ⟨rfl, rfl⟩

/-- Witness for C4 at `N = 1`, discharged through `c4_list_nodes_lengths`. -/
theorem c4_list_nodes_lengths_witness :
    (∀ r ∈ [ruleFix], ruleOkJ r = true) ∧
    ∃ node, list_nodes (c4api [ruleFix]) = .ok [node] ∧
      (nodeAddrList node).length = 2 ∧ node.public_ip.length = 2 ∧
      (nodeRuleList node).length = 2 * [ruleFix].length :=
  ⟨by decide, c4_list_nodes_lengths [ruleFix] (by decide)⟩
